import Mathlib

/-!
Verification of the SGCT cluster-rendering toolkit's projection/viewport and
correction-mesh subsystems, shallowly embedded from the C++ sources.

Floating-point values (`float` in the source) are modelled as real numbers;
the bit-level decoding of a 4-byte little-endian IEEE 754 pattern into a real
is kept abstract as a parameter `f32 : Nat → ℝ` (taking the 32-bit pattern),
since no verified property depends on the numeric value of a decoded float.
Byte buffers are modelled as `List Nat` (one element per byte).
-/

noncomputable section

open Real

/-- 2-component vector (mirrors `glm::vec2`). -/
structure Vec2 where
  x : ℝ
  y : ℝ

/-- 3-component vector (mirrors `glm::vec3`). -/
structure Vec3 where
  x : ℝ
  y : ℝ
  z : ℝ

/-- 4-component vector (mirrors `glm::vec4`); used for the stored FOV
`(up, down, left, right)`. -/
structure Vec4 where
  x : ℝ
  y : ℝ
  z : ℝ
  w : ℝ

/-- Quaternion (mirrors `glm::quat`, constructor order `(w, x, y, z)`). -/
structure Quat where
  w : ℝ
  x : ℝ
  y : ℝ
  z : ℝ

/-- Cross product of two 3-vectors (mirrors `glm::cross`). -/
def cross (a b : Vec3) : Vec3 :=
  ⟨a.y * b.z - a.z * b.y, a.z * b.x - a.x * b.z, a.x * b.y - a.y * b.x⟩

/-- Dot product of two 3-vectors (mirrors `glm::dot`). -/
def dot (a b : Vec3) : ℝ :=
  a.x * b.x + a.y * b.y + a.z * b.z

/-- Componentwise difference of two 3-vectors. -/
def Vec3.sub (a b : Vec3) : Vec3 :=
  ⟨a.x - b.x, a.y - b.y, a.z - b.z⟩

/-- Rotation of a vector by a quaternion, following glm's
`operator*(qua, vec3)`: with `u` the imaginary part,
`v + 2 (w (u × v) + u × (u × v))`. -/
def Quat.rotate (q : Quat) (v : Vec3) : Vec3 :=
  let u : Vec3 := ⟨q.x, q.y, q.z⟩
  let uv := cross u v
  let uuv := cross u uv
  ⟨v.x + (uv.x * q.w + uuv.x) * 2,
   v.y + (uv.y * q.w + uuv.y) * 2,
   v.z + (uv.z * q.w + uuv.z) * 2⟩

/-- The identity quaternion, glm's default `quat(1, 0, 0, 0)`. -/
def Quat.identity : Quat := ⟨1, 0, 0, 0⟩

/-- Degrees-to-radians conversion (`glm::radians`). -/
def degToRad (x : ℝ) : ℝ := x * (Real.pi / 180)

/-- Radians-to-degrees conversion (`glm::degrees`). -/
def radToDeg (x : ℝ) : ℝ := x * (180 / Real.pi)

/-- Clamp as in glm: `clamp(v, lo, hi) = min(max(v, lo), hi)`. -/
def clampR (v lo hi : ℝ) : ℝ := min (max v lo) hi

/-- The projection plane's three stored corners
(mirrors `SGCTProjectionPlane` and the `mUnTransformedViewPlaneCoords`
aggregate of `BaseViewport`). -/
structure ProjectionPlane where
  lowerLeft : Vec3
  upperLeft : Vec3
  upperRight : Vec3

/-- Eye selector (`Frustum::FrustumMode`). -/
inductive FrustumMode where
  | monoEye
  | stereoLeftEye
  | stereoRightEye
deriving DecidableEq

/-- State of a `BaseViewport` (`src/sgct/BaseViewport.cpp`), restricted to the
fields read or written by the verified operations.  The referenced `SGCTUser`'s
position is carried inline as `mUser` (the viewport holds a reference to a
shared user; only its position is relevant here). -/
structure BaseViewport where
  mPosition : Vec2
  mSize : Vec2
  mProjectionPlane : ProjectionPlane
  mUnTransformedViewPlaneCoords : ProjectionPlane
  mRot : Quat
  mFOV : Vec4
  mDistance : ℝ
  mEye : FrustumMode
  mEnabled : Bool
  mUser : Vec3

/-- Mirrors `BaseViewport::setViewPlaneCoordsFromUnTransformedCoords`: rotates the
three given corners by `rot` into `mProjectionPlane`. -/
def BaseViewport.setViewPlaneCoordsFromUnTransformedCoords
    (vp : BaseViewport) (lowerLeft upperLeft upperRight : Vec3) (rot : Quat) :
    BaseViewport :=
  { vp with mProjectionPlane :=
      ⟨Quat.rotate rot lowerLeft, Quat.rotate rot upperLeft,
       Quat.rotate rot upperRight⟩ }

/-- Mirrors `BaseViewport::setViewPlaneCoordsUsingFOVs`: stores the FOV angles,
rotation and distance, derives the untransformed plane corners with
`dist * tan(radians(angle))`, and rotates them into the projection plane.
The C++ declaration defaults `dist` to `10.f`. -/
def BaseViewport.setViewPlaneCoordsUsingFOVs (vp : BaseViewport)
    (up down left right : ℝ) (rot : Quat) (dist : ℝ) : BaseViewport :=
  let lowerLeft : Vec3 :=
    ⟨dist * Real.tan (degToRad left), dist * Real.tan (degToRad down), -dist⟩
  let upperLeft : Vec3 :=
    ⟨dist * Real.tan (degToRad left), dist * Real.tan (degToRad up), -dist⟩
  let upperRight : Vec3 :=
    ⟨dist * Real.tan (degToRad right), dist * Real.tan (degToRad up), -dist⟩
  BaseViewport.setViewPlaneCoordsFromUnTransformedCoords
    { vp with
        mRot := rot
        mFOV := ⟨up, down, left, right⟩
        mDistance := dist
        mUnTransformedViewPlaneCoords := ⟨lowerLeft, upperLeft, upperRight⟩ }
    lowerLeft upperLeft upperRight rot

/-- Mirrors `BaseViewport::updateFovToMatchAspectRatio`: scales the x components of the
three untransformed corners by `newRatio / oldRatio` and re-rotates them into
the projection plane with the stored rotation. -/
def BaseViewport.updateFovToMatchAspectRatio (vp : BaseViewport)
    (oldRatio newRatio : ℝ) : BaseViewport :=
  let c := vp.mUnTransformedViewPlaneCoords
  let c' : ProjectionPlane :=
    ⟨⟨c.lowerLeft.x * (newRatio / oldRatio), c.lowerLeft.y, c.lowerLeft.z⟩,
     ⟨c.upperLeft.x * (newRatio / oldRatio), c.upperLeft.y, c.upperLeft.z⟩,
     ⟨c.upperRight.x * (newRatio / oldRatio), c.upperRight.y, c.upperRight.z⟩⟩
  BaseViewport.setViewPlaneCoordsFromUnTransformedCoords
    { vp with mUnTransformedViewPlaneCoords := c' }
    c'.lowerLeft c'.upperLeft c'.upperRight vp.mRot

/-- Mirrors `BaseViewport::getHorizontalFieldOfViewDegrees`: reads the (rotated)
projection-plane corners and returns `2 * degrees(atan(|xDist / zDist|))`. -/
def BaseViewport.getHorizontalFieldOfViewDegrees (vp : BaseViewport) : ℝ :=
  let xDist := (vp.mProjectionPlane.upperRight.x -
    vp.mProjectionPlane.upperLeft.x) / 2
  let zDist := vp.mProjectionPlane.upperRight.z
  radToDeg (Real.arctan |xDist / zDist|) * 2

/-- Mirrors `BaseViewport::setHorizontalFieldOfView`: derives symmetric up/down and
left/right angles from the desired horizontal FOV and aspect ratio, then
reconstructs the plane with `setViewPlaneCoordsUsingFOVs` at distance
`|zDist|` with the stored rotation. -/
def BaseViewport.setHorizontalFieldOfView (vp : BaseViewport)
    (horizFovDeg aspect : ℝ) : BaseViewport :=
  let zDist := vp.mProjectionPlane.upperRight.z
  let planeDimsX := |zDist| * Real.tan (degToRad horizFovDeg / 2)
  let planeDimsY := planeDimsX / aspect
  let verticalAngle := radToDeg (Real.arctan (planeDimsY / |zDist|))
  BaseViewport.setViewPlaneCoordsUsingFOVs vp
    verticalAngle (-verticalAngle) (-horizFovDeg / 2) (horizFovDeg / 2)
    vp.mRot |zDist|

/-- Primitive topology tag of a correction-mesh buffer
(`GL_TRIANGLES` / `GL_TRIANGLE_STRIP`). -/
inductive GeometryType where
  | triangles
  | triangleStrip
deriving DecidableEq

/-- A warped mesh vertex (`CorrectionMeshVertex`): clip-space position,
texture coordinates, blend color. -/
structure CorrectionMeshVertex where
  x : ℝ
  y : ℝ
  s : ℝ
  t : ℝ
  r : ℝ
  g : ℝ
  b : ℝ
  a : ℝ

/-- The parsers' output (`correction::Buffer`). -/
structure Buffer where
  vertices : List CorrectionMeshVertex
  indices : List Nat
  geometryType : GeometryType

/-- Reduction modulo `2^32`: the wrap-around of C `unsigned int` arithmetic. -/
def u32 (n : Nat) : Nat := n % 4294967296

/-- The C expression `n - 1u` on an `unsigned int` in `[0, 2^32)`: ordinary
subtraction for positive `n`, wrapping to `2^32 - 1` at `n = 0`. -/
def u32sub1 (n : Nat) : Nat := (n + 4294967295) % 4294967296

/-- The 32-bit little-endian word formed by the four bytes of `l` starting at
offset `off` (reads of `unsigned int`/`float` storage by `fread`/`memcpy` on
the little-endian targets the code runs on).  Only used at offsets that the
parser has bounds-checked. -/
def u32leAt (l : List Nat) (off : Nat) : Nat :=
  l.getD off 0 + 256 * l.getD (off + 1) 0 + 65536 * l.getD (off + 2) 0 +
    16777216 * l.getD (off + 3) 0

/-- Projection of a parse result onto its buffer; parse errors map to an empty
buffer (used only to state properties of successful parses). -/
def okBuffer {α : Type} (r : Except String (Buffer × α)) : Buffer :=
  match r with
  | .ok p => p.1
  | .error _ => ⟨[], [], GeometryType.triangles⟩

/-- Projection of a SCISS parse result onto the updated viewport; parse errors
map to the given (unmodified) viewport. -/
def okViewport (r : Except String (Buffer × BaseViewport)) (d : BaseViewport) :
    BaseViewport :=
  match r with
  | .ok p => p.2
  | .error _ => d

/-- The `SCISSViewData` record of a Format B file: rotation quaternion, view
position and four FOV angles, 11 consecutive 4-byte floats at offset 8. -/
structure ScissViewData where
  qx : ℝ
  qy : ℝ
  qz : ℝ
  qw : ℝ
  x : ℝ
  y : ℝ
  z : ℝ
  fovUp : ℝ
  fovDown : ℝ
  fovLeft : ℝ
  fovRight : ℝ

/-- Decodes the `SCISSViewData` record read by `fread(&viewData, 44, 1)` at
file offset 8, field by field through the abstract float decoder. -/
def scissViewDataAt (f32 : Nat → ℝ) (l : List Nat) : ScissViewData :=
  ⟨f32 (u32leAt l 8), f32 (u32leAt l 12), f32 (u32leAt l 16),
   f32 (u32leAt l 20), f32 (u32leAt l 24), f32 (u32leAt l 28),
   f32 (u32leAt l 32), f32 (u32leAt l 36), f32 (u32leAt l 40),
   f32 (u32leAt l 44), f32 (u32leAt l 48)⟩

/-- Version byte of a Format B file (`uint8_t fileVersion`, file offset 3). -/
def scissFileVersion (l : List Nat) : Nat := l.getD 3 0

/-- First word of the 2-value vertex-count descriptor (`size[0]`, offset 52). -/
def scissSize0 (l : List Nat) : Nat := u32leAt l 52

/-- Second word of the 2-value vertex-count descriptor (`size[1]`, offset 56). -/
def scissSize1 (l : List Nat) : Nat := u32leAt l 56

/-- Number of vertices of a Format B file: `size[1]` when the version byte is
the number 2, else `size[0] * size[1]` — the version switch of
`generateScissMesh`.  The product is a C `unsigned int` multiplication
(sciss.cpp line 139) and therefore wraps modulo `2^32`. -/
def scissNVertices (l : List Nat) : Nat :=
  if scissFileVersion l = 2 then scissSize1 l
  else u32 (scissSize0 l * scissSize1 l)

/-- The 4-byte index count that follows the vertex records. -/
def scissNIndices (l : List Nat) : Nat :=
  u32leAt l (60 + 24 * scissNVertices l)

/-- The index words read verbatim from the file after the index count; no
comparison against the vertex count is performed. -/
def scissIndices (l : List Nat) : List Nat :=
  (List.range (scissNIndices l)).map fun i =>
    u32leAt l (60 + 24 * scissNVertices l + 4 + 4 * i)

/-- The topology selection at the end of `generateScissMesh`: the version
byte is compared against the character `'2'` (byte 50), not the number 2. -/
def scissGeometryType (l : List Nat) : GeometryType :=
  if scissFileVersion l = 50 ∧ scissSize0 l = 4 then GeometryType.triangles
  else if scissFileVersion l = 50 ∧ scissSize0 l = 5 then
    GeometryType.triangleStrip
  else GeometryType.triangleStrip

/-- The post-processing of the `i`-th `SCISSTexturedVertex` (24 bytes at file
offset `60 + 24 i`): clamp positions and texture coordinates to `[0, 1]`, then
map through the parent viewport's position and size into clip space, mirroring
the loop body of `generateScissMesh`. -/
def scissVertex (f32 : Nat → ℝ) (l : List Nat) (parent : BaseViewport)
    (i : Nat) : CorrectionMeshVertex :=
  let off := 60 + 24 * i
  let sx := clampR (f32 (u32leAt l off)) 0 1
  let sy := clampR (f32 (u32leAt l (off + 4))) 0 1
  let tx := clampR (f32 (u32leAt l (off + 12))) 0 1
  let ty := clampR (f32 (u32leAt l (off + 16))) 0 1
  ⟨2 * (sx * parent.mSize.x + parent.mPosition.x) - 1,
   2 * ((1 - sy) * parent.mSize.y + parent.mPosition.y) - 1,
   tx * parent.mSize.x + parent.mPosition.x,
   ty * parent.mSize.y + parent.mPosition.y,
   1, 1, 1, 1⟩

/-- The whole post-processed vertex sequence of a Format B file. -/
def scissVertices (f32 : Nat → ℝ) (l : List Nat) (parent : BaseViewport) :
    List CorrectionMeshVertex :=
  (List.range (scissNVertices l)).map (scissVertex f32 l parent)

/-- The updated parent viewport after a successful Format B parse: the user
position is set from the view-data record, then
`setViewPlaneCoordsUsingFOVs` is called with the record's four FOV angles and
rotation quaternion at the default distance 10 (the `parent.getUser().setPos`
and `parent.setViewPlaneCoordsUsingFOVs` calls of the source). -/
def scissParent2 (f32 : Nat → ℝ) (l : List Nat) (parent : BaseViewport) :
    BaseViewport :=
  let viewData := scissViewDataAt f32 l
  BaseViewport.setViewPlaneCoordsUsingFOVs
    { parent with mUser := ⟨viewData.x, viewData.y, viewData.z⟩ }
    viewData.fovUp viewData.fovDown viewData.fovLeft viewData.fovRight
    ⟨viewData.qw, viewData.qx, viewData.qy, viewData.qz⟩ 10

/-- Mirrors `generateScissMesh` (`src/sgct/correction/sciss.cpp`), the Format B parser.
The file layout is: 3-byte id `SGC`, 1-byte version, 4-byte mapping type,
44-byte view-data record, two 4-byte vertex-count words, `nVertices` 24-byte
vertex records, a 4-byte index count, and `nIndices` 4-byte index words.
Every short read is the distinct error thrown at that point in the source.
Each `fread(ptr, s, n)` returns fewer than `n` complete items exactly when
fewer than `s * n` bytes remain, which the length guards below mirror.
On success the view metadata is applied back to the parent: the user position
is set from the record and `setViewPlaneCoordsUsingFOVs` is called with the
record's four FOV angles and quaternion (and the default distance `10`); the
returned viewport is that updated parent.  (The source's final
`Engine::instance().updateFrustums()` refreshes engine-global derived
frustum matrices and is outside the viewport state modelled here.)
The vertex post-processing loop reads `parent.getSize()`/`getPosition()`,
which `setViewPlaneCoordsUsingFOVs` does not modify, so it is evaluated on the
incoming parent.  Note the topology selection at the end compares the version
byte against the character `'2'` (byte 50), not the number 2. -/
def generateScissMesh (f32 : Nat → ℝ) (file : List Nat)
    (parent : BaseViewport) : Except String (Buffer × BaseViewport) :=
  if file.length < 3 ∨ file.take 3 ≠ [83, 71, 67] then
    .error "Incorrect file id"
  else if file.length < 4 then
    .error "Error parsing file version from file"
  else if file.length < 8 then
    .error "Error parsing type from file"
  else if file.length < 52 then
    .error "Error parsing view data from file"
  else if file.length < 60 then
    .error "Error parsing file"
  else if file.length < 60 + 24 * scissNVertices file then
    .error "Error parsing vertices from file"
  else if file.length < 60 + 24 * scissNVertices file + 4 then
    .error "Error parsing indices from file"
  else if file.length <
      60 + 24 * scissNVertices file + 4 + 4 * scissNIndices file then
    .error "Error parsing faces from file"
  else
    .ok (⟨scissVertices f32 file parent, scissIndices file,
      scissGeometryType file⟩, scissParent2 f32 file parent)

/-- ASCII decimal digit test. -/
def isDigit (b : Nat) : Bool := 48 ≤ b && b ≤ 57

/-- C whitespace test (space, tab, newline, vertical tab, form feed,
carriage return), as skipped by `sscanf`. -/
def isWsByte (b : Nat) : Bool :=
  b = 32 || b = 9 || b = 10 || b = 11 || b = 12 || b = 13

/-- Accumulates a run of leading decimal digits. -/
def takeDigits : List Nat → Nat → Nat × List Nat
  | [], acc => (acc, [])
  | b :: rest, acc =>
    if isDigit b then takeDigits rest (acc * 10 + (b - 48)) else (acc, b :: rest)

/-- One `%d` conversion of `sscanf` on a whitespace-stripped input: an optional
sign followed by at least one digit, the value stored into an `unsigned int`
(wrapping mod `2^32`); `none` on matching failure. -/
def scanInt : List Nat → Option (Nat × List Nat)
  | [] => none
  | b :: rest =>
    if b = 45 then
      match rest with
      | [] => none
      | d :: _ =>
        if isDigit d then
          let p := takeDigits rest 0
          some ((4294967296 - p.1 % 4294967296) % 4294967296, p.2)
        else none
    else if b = 43 then
      match rest with
      | [] => none
      | d :: _ =>
        if isDigit d then
          let p := takeDigits rest 0
          some (p.1 % 4294967296, p.2)
        else none
    else if isDigit b then
      let p := takeDigits (b :: rest) 0
      some (p.1 % 4294967296, p.2)
    else none

/-- Result of `sscanf(headerBuffer, "%2c %d %d", ...)`: the number of
assigned items `res` plus the assigned tag bytes and grid size.  Unassigned
outputs keep their prior value (`nCols`/`nRows` are initialised to 0 in the
source; the 2-char tag is uninitialised, modelled as 0 when unassigned). -/
structure PFHeader where
  res : Nat
  tag0 : Nat
  tag1 : Nat
  nCols : Nat
  nRows : Nat

/-- Model of `sscanf` on the Format A header with format `"%2c %d %d"`: `%2c` consumes
exactly two bytes (no whitespace skip), then each `%d` skips whitespace and
converts an optional sign plus digits.  The format has three conversion
specifications, so `res` is at most 3. -/
def sscanfPF : List Nat → PFHeader
  | b0 :: b1 :: rest =>
    (match scanInt (rest.dropWhile isWsByte) with
     | none => ⟨1, b0, b1, 0, 0⟩
     | some (c, rest2) =>
       match scanInt (rest2.dropWhile isWsByte) with
       | none => ⟨2, b0, b1, c, 0⟩
       | some (r, _) => ⟨3, b0, b1, c, r⟩)
  | _ => ⟨0, 0, 0, 0, 0⟩

/-- Offset just past the third newline byte of `l`, `none` when fewer than
three newlines exist: the header scan loop of `generateMpcdiMesh`, which
errors out when it runs off the end of the buffer before its third newline. -/
def headerEndAux : List Nat → Nat → Option Nat
  | [], _ => none
  | b :: rest, n =>
    if b = 10 then
      if n + 1 = 3 then some 1
      else (headerEndAux rest (n + 1)).map fun k => k + 1
    else (headerEndAux rest n).map fun k => k + 1

/-- Offset just past the third newline of the buffer, if any. -/
def mpcdiHeaderEnd (l : List Nat) : Option Nat := headerEndAux l 0

/-- The index buffer built by `generateMpcdiMesh`'s double loop: for each 2x2
cell (`c` outer up to `nCols - 1`, `r` inner up to `nRows - 1`) two triangles
with a fixed diagonal.  The loop bounds and the index computations are C
`unsigned int` arithmetic: at `nCols = 0` (or `nRows = 0`) the bound
`nCols - 1` wraps to `2^32 - 1` and the loop emits indices against an empty
vertex list, and each pushed index `r * nCols + c` wraps modulo `2^32`. -/
def mpcdiGridIndices (nCols nRows : Nat) : List Nat :=
  (List.range (u32sub1 nCols)).flatMap fun c =>
    (List.range (u32sub1 nRows)).flatMap fun r =>
      [u32 (r * nCols + c), u32 (r * nCols + (c + 1)),
       u32 ((r + 1) * nCols + (c + 1)), u32 (r * nCols + c),
       u32 ((r + 1) * nCols + (c + 1)), u32 ((r + 1) * nCols + c)]

/-- Core of `generateMpcdiMesh` (`src/sgct/correction/mpcdimesh.cpp`),
parameterised by the value the `sscanf` result is required to equal
(the source compares against 4; see `generateMpcdiMesh` and
`generateMpcdiMeshHeaderFixed`).  Scans three newline-terminated header lines,
parses `"%2c %d %d"` out of them, checks the `PF` tag, then reads
`nCols * nRows` triplets of 4-byte floats (x-correction, y-correction,
discarded error value) through the unchecked `readMeshBuffer` cursor —
12 bytes per triplet — builds grid vertices with flipped y and correction
offsets remapped to clip space, and triangulates the grid.  Returns the
buffer together with the final read cursor `srcIdx`.
The source's `const int nCorrectionValues = nCols * nRows` is an `unsigned`
multiplication wrapping modulo `2^32` whose result is then converted to a
signed 32-bit `int`: when the wrapped product is at least `2^31` that `int`
is negative, and the immediately following
`std::vector<float> corrGridX(nCorrectionValues)` converts it to a huge
`size_t` and throws `std::length_error`, aborting the parse — modelled as the
error branch below.  Otherwise every loop bounded by `nCorrectionValues` runs
exactly the wrapped product many times.  The grid normalisation divides by
`static_cast<float>(nCols - 1)`, again unsigned arithmetic that wraps at
`nCols = 0`. -/
def generateMpcdiMeshAux (resRequired : Nat) (f32 : Nat → ℝ)
    (src : List Nat) : Except String (Buffer × Nat) :=
  match mpcdiHeaderEnd src with
  | none => .error "Error reading from file. Could not find lines"
  | some hEnd =>
    let s := sscanfPF (src.take hEnd)
    if s.res ≠ resRequired then .error "Invalid header syntax"
    else if s.tag0 ≠ 80 ∨ s.tag1 ≠ 70 then
      .error "Incorrect file type. Unknown header type"
    else
      let nCols := s.nCols
      let nRows := s.nRows
      let n := u32 (nCols * nRows)
      if 2147483648 ≤ n then .error "vector length error"
      else
        let vertices := (List.range n).map fun i =>
          let cx := f32 (u32leAt src (hEnd + 12 * i))
          let cy := f32 (u32leAt src (hEnd + 12 * i + 4))
          let sx : ℝ := ((i % nCols : Nat) : ℝ) / ((u32sub1 nCols : Nat) : ℝ)
          let sy : ℝ := 1 - ((i / nCols : Nat) : ℝ) / ((u32sub1 nRows : Nat) : ℝ)
          ⟨2 * (sx + cx) - 1, 2 * (sy + cy) - 1, sx, sy, 1, 1, 1, 1⟩
        .ok (⟨vertices, mpcdiGridIndices nCols nRows, GeometryType.triangles⟩,
          hEnd + 12 * n)

/-- The parser `generateMpcdiMesh` as shipped: the header is accepted only when `sscanf`
returned 4 — which a 3-conversion format never does. -/
def generateMpcdiMesh (f32 : Nat → ℝ) (src : List Nat) :
    Except String (Buffer × Nat) :=
  generateMpcdiMeshAux 4 f32 src

/-- Variant of `generateMpcdiMesh` with the header-success check corrected to the number
of conversions actually present in the format string (`res != 3`), the
evident intent of the dead code that follows the check. -/
def generateMpcdiMeshHeaderFixed (f32 : Nat → ℝ) (src : List Nat) :
    Except String (Buffer × Nat) :=
  generateMpcdiMeshAux 3 f32 src

/-- Configuration-time error (spec section 7: degenerate frustum geometry,
eye on the projection plane). -/
inductive ConfigError where
  | eyeOnPlane
deriving DecidableEq

/-- Six frustum bounds (left, right, bottom, top, near, far). -/
structure FrustumBounds where
  left : ℝ
  right : ℝ
  bottom : ℝ
  top : ℝ
  nearPlane : ℝ
  farPlane : ℝ

/-- Normal of the projection plane spanned by its corner differences; this is
the view axis of the frustum computation. -/
def planeNormal (p : ProjectionPlane) : Vec3 :=
  cross (Vec3.sub p.upperRight p.upperLeft) (Vec3.sub p.upperLeft p.lowerLeft)

/-- Unit-length rescaling of a vector. -/
def normalizeV (v : Vec3) : Vec3 :=
  let len := Real.sqrt (dot v v)
  ⟨v.x / len, v.y / len, v.z / len⟩

/-- Modelled from the spec: `SGCTProjection::calculateProjection` is not under
`src/` (only its caller `BaseViewport::calculateFrustum` is), so the frustum
computation is modelled from spec section 4.3: the plane corners are projected
onto the near plane from the eye position by similar-triangles scaling with
`near / distance-to-plane-along-view-axis`, and an eye lying exactly on the
plane (zero distance along the view axis) is rejected as a configuration
error instead of dividing by zero. -/
def calculateProjection (eyePos : Vec3) (plane : ProjectionPlane)
    (nearClip farClip : ℝ) : Except ConfigError FrustumBounds :=
  let n := planeNormal plane
  let d := dot (Vec3.sub plane.lowerLeft eyePos) n / Real.sqrt (dot n n)
  if d = 0 then .error ConfigError.eyeOnPlane
  else
    let scale := nearClip / d
    let xAxis := normalizeV (Vec3.sub plane.upperRight plane.upperLeft)
    let yAxis := normalizeV (Vec3.sub plane.upperLeft plane.lowerLeft)
    .ok ⟨dot (Vec3.sub plane.lowerLeft eyePos) xAxis * scale,
         dot (Vec3.sub plane.upperRight eyePos) xAxis * scale,
         dot (Vec3.sub plane.lowerLeft eyePos) yAxis * scale,
         dot (Vec3.sub plane.upperRight eyePos) yAxis * scale,
         nearClip, farClip⟩

/-- A trivial instantiation of the abstract float decoder, used for concrete
test files whose float payloads are irrelevant. -/
def dec0 : Nat → ℝ := fun _ => 0

/-- A default-constructed viewport: position `(0,0)`, size `(1,1)`, identity
rotation (the C++ member initialisers). -/
def vp0 : BaseViewport :=
  { mPosition := ⟨0, 0⟩
    mSize := ⟨1, 1⟩
    mProjectionPlane := ⟨⟨0, 0, 0⟩, ⟨0, 0, 0⟩, ⟨0, 0, 0⟩⟩
    mUnTransformedViewPlaneCoords := ⟨⟨0, 0, 0⟩, ⟨0, 0, 0⟩, ⟨0, 0, 0⟩⟩
    mRot := Quat.identity
    mFOV := ⟨0, 0, 0, 0⟩
    mDistance := 0
    mEye := FrustumMode.monoEye
    mEnabled := true
    mUser := ⟨0, 0, 0⟩ }

/-- A Format B file with version byte 2, vertex descriptor `(1, 1)` (one
vertex), one index whose value is 5: parses successfully although the index
is out of range. -/
def scissBadIndexFile : List Nat :=
  [83, 71, 67, 2] ++ List.replicate 48 0 ++ [1, 0, 0, 0] ++ [1, 0, 0, 0] ++
    List.replicate 24 0 ++ [1, 0, 0, 0] ++ [5, 0, 0, 0]

/-- A Format B file with numeric version byte 2 and vertex descriptor
`(4, 1)`: per the claim this selects a triangle list. -/
def scissV2Size4File : List Nat :=
  [83, 71, 67, 2] ++ List.replicate 48 0 ++ [4, 0, 0, 0] ++ [1, 0, 0, 0] ++
    List.replicate 24 0 ++ [0, 0, 0, 0]

/-- A minimal well-formed Format B file (version 2, zero vertices and zero
indices). -/
def scissOkFile : List Nat :=
  [83, 71, 67, 2] ++ List.replicate 48 0 ++ [4, 0, 0, 0] ++ [0, 0, 0, 0] ++
    [0, 0, 0, 0]

/-- A version-2 Format B file with vertex descriptor `(4, 100)` and 100
vertex records. -/
def scissV2File : List Nat :=
  ([83, 71, 67, 2] ++ List.replicate 48 0 ++ [4, 0, 0, 0] ++ [100, 0, 0, 0]) ++
    (List.replicate 2400 0 ++ [0, 0, 0, 0])

/-- A version-1 Format B file with vertex descriptor `(10, 10)` and 100
vertex records. -/
def scissV1File : List Nat :=
  ([83, 71, 67, 1] ++ List.replicate 48 0 ++ [10, 0, 0, 0] ++ [10, 0, 0, 0]) ++
    (List.replicate 2400 0 ++ [0, 0, 0, 0])

/-- A version-1 Format B file whose vertex descriptor is `(65536, 65536)`:
the 32-bit product wraps to 0, so the source parses it successfully with zero
vertices (and zero indices). -/
def scissWrapFile : List Nat :=
  [83, 71, 67, 1] ++ List.replicate 48 0 ++ [0, 0, 1, 0] ++ [0, 0, 1, 0] ++
    [0, 0, 0, 0]

/-- The bytes of the well-formed Format A header `PF\n4 3\n-1\n` (three
newline-terminated lines: tag `PF`, then columns 4 and rows 3). -/
def pfmHeaderOnly : List Nat := [80, 70, 10, 52, 32, 51, 10, 45, 49, 10]

/-- The header `PF\n4 3\n-1\n` followed by `4 * 3 * 3 * 4 = 144` bytes of
vertex payload. -/
def pfm43File : List Nat := pfmHeaderOnly ++ List.replicate 144 0

/-- The unit quaternion `(w, x, y, z) = (3/5, 0, 4/5, 0)`: a rotation about
the y axis (by the angle whose half has cosine 3/5), chosen because rotating
by it is an exact rational map. -/
def quatY35 : Quat := ⟨3 / 5, 0, 4 / 5, 0⟩

/-- A viewport configured through `setViewPlaneCoordsUsingFOVs` with the
non-identity rotation `quatY35` and symmetric 90-degree FOVs at distance 1. -/
def cexVp : BaseViewport :=
  BaseViewport.setViewPlaneCoordsUsingFOVs vp0 45 (-45) (-45) 45 quatY35 1

/-- A viewport with identity rotation whose projection plane is the square
`z = -2` plane section used to witness the FOV round trip. -/
def vp4w : BaseViewport :=
  { vp0 with mProjectionPlane := ⟨⟨-1, -1, -2⟩, ⟨-1, 1, -2⟩, ⟨1, 1, -2⟩⟩ }

theorem Quat.rotate_identity (v : Vec3) : Quat.rotate Quat.identity v = v := by
  obtain ⟨a, b, c⟩ := v
  simp only [Quat.rotate, Quat.identity, cross, Vec3.mk.injEq]
  refine ⟨by ring, by ring, by ring⟩

theorem Quat.rotate_quatY35 (a b c : ℝ) :
    Quat.rotate quatY35 ⟨a, b, c⟩ =
      ⟨(24 * c - 7 * a) / 25, b, -(24 * a + 7 * c) / 25⟩ := by
  simp only [Quat.rotate, quatY35, cross, Vec3.mk.injEq]
  refine ⟨by ring, by ring, by ring⟩

theorem getD_four_zeros (k : Nat) : ([0, 0, 0, 0] : List Nat).getD k 0 = 0 := by
  rcases k with _ | k; · rfl
  rcases k with _ | k; · rfl
  rcases k with _ | k; · rfl
  rcases k with _ | k; · rfl
  exact List.getD_eq_default _ _ (by simp)

theorem mpcdiGridIndices_lt (nCols nRows : Nat) (hc1 : 1 ≤ nCols)
    (hr1 : 1 ≤ nRows) (hprod : nCols * nRows < 2147483648) :
    ∀ i ∈ mpcdiGridIndices nCols nRows, i < nCols * nRows := by
  intro i hi
  have hcB : nCols < 4294967296 := by
    have h1 : nCols * 1 ≤ nCols * nRows := Nat.mul_le_mul_left _ hr1
    omega
  have hrB : nRows < 4294967296 := by
    have h1 : 1 * nRows ≤ nCols * nRows := Nat.mul_le_mul_right _ hc1
    omega
  have hsubc : u32sub1 nCols = nCols - 1 := by rw [u32sub1]; omega
  have hsubr : u32sub1 nRows = nRows - 1 := by rw [u32sub1]; omega
  simp only [mpcdiGridIndices, hsubc, hsubr, List.mem_flatMap,
    List.mem_range] at hi
  obtain ⟨c, hc, r, hr, hmem⟩ := hi
  have key : ∀ a b : Nat, a < nRows → b < nCols →
      u32 (a * nCols + b) < nCols * nRows := by
    intro a b ha hb
    have h1 : a * nCols + b < nCols * nRows := by
      calc a * nCols + b < a * nCols + nCols := by omega
      _ = (a + 1) * nCols := by ring
      _ ≤ nRows * nCols := Nat.mul_le_mul_right _ ha
      _ = nCols * nRows := Nat.mul_comm _ _
    rw [u32, Nat.mod_eq_of_lt (by omega)]
    exact h1
  simp only [List.mem_cons, List.not_mem_nil, or_false] at hmem
  rcases hmem with rfl | rfl | rfl | rfl | rfl | rfl
  · exact key r c (by omega) (by omega)
  · exact key r (c + 1) (by omega) (by omega)
  · exact key (r + 1) (c + 1) (by omega) (by omega)
  · exact key r c (by omega) (by omega)
  · exact key (r + 1) (c + 1) (by omega) (by omega)
  · exact key (r + 1) c (by omega) (by omega)

theorem mpcdiGridIndices_wrap_at_zero_cols : 0 ∈ mpcdiGridIndices 0 2 := by
  simp only [mpcdiGridIndices, List.mem_flatMap, List.mem_range]
  refine ⟨0, ?_, 0, ?_, ?_⟩
  · rw [u32sub1]
    norm_num
  · rw [u32sub1]
    norm_num
  · simp [u32]

theorem generateScissMesh_ok (f32 : Nat → ℝ) (file : List Nat)
    (vp : BaseViewport) (h : (generateScissMesh f32 file vp).isOk = true) :
    generateScissMesh f32 file vp =
      Except.ok (⟨scissVertices f32 file vp, scissIndices file,
        scissGeometryType file⟩, scissParent2 f32 file vp) := by
  unfold generateScissMesh at h ⊢
  split_ifs at h ⊢
  any_goals simp [Except.isOk, Except.toBool] at h
  rfl

/-- C9: `setHorizontalFieldOfView` always stores a symmetric FOV: the stored
angles satisfy `up = -down` and `right = -left = h / 2`, for every viewport
state, FOV value and aspect ratio — so any previously configured asymmetric
FOV is overwritten by this call. -/
theorem setHorizontalFOV_symmetric (vp : BaseViewport) (h a : ℝ) :
    (BaseViewport.setHorizontalFieldOfView vp h a).mFOV.x =
      -(BaseViewport.setHorizontalFieldOfView vp h a).mFOV.y ∧
    (BaseViewport.setHorizontalFieldOfView vp h a).mFOV.w = h / 2 ∧
    (BaseViewport.setHorizontalFieldOfView vp h a).mFOV.z = -(h / 2) := by
  unfold BaseViewport.setHorizontalFieldOfView
    BaseViewport.setViewPlaneCoordsUsingFOVs
    BaseViewport.setViewPlaneCoordsFromUnTransformedCoords
  refine ⟨?_, ?_, ?_⟩ <;> dsimp only <;> ring

/-- C10: `updateFovToMatchAspectRatio` multiplies exactly the x components of
the three untransformed plane corners by `newRatio / oldRatio`, leaves their
y and z components and the stored rotation unchanged, and does not recompute
the stored FOV vector or distance. -/
theorem updateFov_scales_only_x (vp : BaseViewport) (oldR newR : ℝ)
    (h1 : 0 < oldR) (h2 : 0 < newR) :
    (BaseViewport.updateFovToMatchAspectRatio vp oldR newR).mUnTransformedViewPlaneCoords.lowerLeft.x =
      vp.mUnTransformedViewPlaneCoords.lowerLeft.x * (newR / oldR) ∧
    (BaseViewport.updateFovToMatchAspectRatio vp oldR newR).mUnTransformedViewPlaneCoords.upperLeft.x =
      vp.mUnTransformedViewPlaneCoords.upperLeft.x * (newR / oldR) ∧
    (BaseViewport.updateFovToMatchAspectRatio vp oldR newR).mUnTransformedViewPlaneCoords.upperRight.x =
      vp.mUnTransformedViewPlaneCoords.upperRight.x * (newR / oldR) ∧
    (BaseViewport.updateFovToMatchAspectRatio vp oldR newR).mUnTransformedViewPlaneCoords.lowerLeft.y =
      vp.mUnTransformedViewPlaneCoords.lowerLeft.y ∧
    (BaseViewport.updateFovToMatchAspectRatio vp oldR newR).mUnTransformedViewPlaneCoords.lowerLeft.z =
      vp.mUnTransformedViewPlaneCoords.lowerLeft.z ∧
    (BaseViewport.updateFovToMatchAspectRatio vp oldR newR).mUnTransformedViewPlaneCoords.upperLeft.y =
      vp.mUnTransformedViewPlaneCoords.upperLeft.y ∧
    (BaseViewport.updateFovToMatchAspectRatio vp oldR newR).mUnTransformedViewPlaneCoords.upperLeft.z =
      vp.mUnTransformedViewPlaneCoords.upperLeft.z ∧
    (BaseViewport.updateFovToMatchAspectRatio vp oldR newR).mUnTransformedViewPlaneCoords.upperRight.y =
      vp.mUnTransformedViewPlaneCoords.upperRight.y ∧
    (BaseViewport.updateFovToMatchAspectRatio vp oldR newR).mUnTransformedViewPlaneCoords.upperRight.z =
      vp.mUnTransformedViewPlaneCoords.upperRight.z ∧
    (BaseViewport.updateFovToMatchAspectRatio vp oldR newR).mRot = vp.mRot ∧
    (BaseViewport.updateFovToMatchAspectRatio vp oldR newR).mFOV = vp.mFOV ∧
    (BaseViewport.updateFovToMatchAspectRatio vp oldR newR).mDistance = vp.mDistance :=
  ⟨rfl, rfl, rfl, rfl, rfl, rfl, rfl, rfl, rfl, rfl, rfl, rfl⟩

/-- Witness for C10 at the concrete viewport `vp0` and ratios `1, 2`. -/
theorem updateFov_scales_only_x_witness :
    (0 : ℝ) < 1 ∧ (0 : ℝ) < 2 ∧
    ((BaseViewport.updateFovToMatchAspectRatio vp0 1 2).mUnTransformedViewPlaneCoords.lowerLeft.x =
      vp0.mUnTransformedViewPlaneCoords.lowerLeft.x * (2 / 1) ∧
    (BaseViewport.updateFovToMatchAspectRatio vp0 1 2).mUnTransformedViewPlaneCoords.upperLeft.x =
      vp0.mUnTransformedViewPlaneCoords.upperLeft.x * (2 / 1) ∧
    (BaseViewport.updateFovToMatchAspectRatio vp0 1 2).mUnTransformedViewPlaneCoords.upperRight.x =
      vp0.mUnTransformedViewPlaneCoords.upperRight.x * (2 / 1) ∧
    (BaseViewport.updateFovToMatchAspectRatio vp0 1 2).mUnTransformedViewPlaneCoords.lowerLeft.y =
      vp0.mUnTransformedViewPlaneCoords.lowerLeft.y ∧
    (BaseViewport.updateFovToMatchAspectRatio vp0 1 2).mUnTransformedViewPlaneCoords.lowerLeft.z =
      vp0.mUnTransformedViewPlaneCoords.lowerLeft.z ∧
    (BaseViewport.updateFovToMatchAspectRatio vp0 1 2).mUnTransformedViewPlaneCoords.upperLeft.y =
      vp0.mUnTransformedViewPlaneCoords.upperLeft.y ∧
    (BaseViewport.updateFovToMatchAspectRatio vp0 1 2).mUnTransformedViewPlaneCoords.upperLeft.z =
      vp0.mUnTransformedViewPlaneCoords.upperLeft.z ∧
    (BaseViewport.updateFovToMatchAspectRatio vp0 1 2).mUnTransformedViewPlaneCoords.upperRight.y =
      vp0.mUnTransformedViewPlaneCoords.upperRight.y ∧
    (BaseViewport.updateFovToMatchAspectRatio vp0 1 2).mUnTransformedViewPlaneCoords.upperRight.z =
      vp0.mUnTransformedViewPlaneCoords.upperRight.z ∧
    (BaseViewport.updateFovToMatchAspectRatio vp0 1 2).mRot = vp0.mRot ∧
    (BaseViewport.updateFovToMatchAspectRatio vp0 1 2).mFOV = vp0.mFOV ∧
    (BaseViewport.updateFovToMatchAspectRatio vp0 1 2).mDistance = vp0.mDistance) :=
  ⟨by norm_num, by norm_num, updateFov_scales_only_x vp0 1 2 (by norm_num) (by norm_num)⟩

/-- C2 (failing input): a Format B file whose numeric version byte is 2 and
whose vertex-count descriptor starts with 4 parses successfully but receives
geometry type triangle strip, not the triangle list required by the claim,
because the source compares the version byte against the character literal
`'2'` (byte 50) in the topology selection. -/
theorem sciss_topology_version_mismatch :
    (generateScissMesh dec0 scissV2Size4File vp0).isOk = true ∧
    (okBuffer (generateScissMesh dec0 scissV2Size4File vp0)).geometryType =
      GeometryType.triangleStrip ∧
    GeometryType.triangleStrip ≠ GeometryType.triangles :=
  ⟨rfl, rfl, by decide⟩

/-- C6 (failing input): the well-formed header `PF\n4 3\n-1\n` is scanned
successfully (three newlines found at offset 10) and `sscanf` assigns all
three conversions (`res = 3`, tag `PF`, columns 4, rows 3), yet the parser
raises the header-syntax error, because it requires `res = 4` — impossible
for a 3-conversion format string. -/
theorem formatA_wellformed_header_rejected :
    mpcdiHeaderEnd pfmHeaderOnly = some 10 ∧
    sscanfPF (pfmHeaderOnly.take 10) = ⟨3, 80, 70, 4, 3⟩ ∧
    generateMpcdiMesh dec0 pfmHeaderOnly =
      Except.error "Invalid header syntax" :=
  ⟨rfl, rfl, rfl⟩

/-- C5: on the well-formed `columns = 4, rows = 3` input, the parser with the
header-success check corrected to `res = 3` finishes with its read cursor at
`10 + 144` (exactly `4 * 3 * 3 * 4 = 144` bytes of vertex data consumed after
the 3-line header, which ends at offset 10) and produces 36 triangle-list
indices (12 triangles) over 12 vertices; the parser as shipped rejects the
same input with the header-syntax error. -/
theorem formatA_consumes_144_bytes_12_triangles :
    (generateMpcdiMeshHeaderFixed dec0 pfm43File).toOption.map
      (fun r => (r.2, r.1.indices.length, r.1.vertices.length, r.1.geometryType)) =
      some (154, 36, 12, GeometryType.triangles) ∧
    generateMpcdiMesh dec0 pfm43File = Except.error "Invalid header syntax" :=
  ⟨rfl, rfl⟩

/-- C1 (counterexample): the Format B parser accepts a file whose single
index word is 5 while only one vertex is present — the parsed buffer violates
the index bound, refuting the claim for `generateScissMesh`. -/
theorem scissMesh_index_unchecked_cx :
    (generateScissMesh dec0 scissBadIndexFile vp0).isOk = true ∧
    (okBuffer (generateScissMesh dec0 scissBadIndexFile vp0)).indices = [5] ∧
    (okBuffer (generateScissMesh dec0 scissBadIndexFile vp0)).vertices.length = 1 ∧
    ¬ (5 < 1) :=
  ⟨rfl, rfl, rfl, by decide⟩

/-- C1 (amended): every index emitted by the Format A parser's grid
triangulation is strictly below its vertex count, for every input whose parsed
grid size has at least one column and one row and whose true product stays
below `2^31` — exactly the range in which the source's 32-bit `unsigned`
loop bounds, index arithmetic and `int` vertex count do not wrap (at
`nCols = 0` the unsigned bound `nCols - 1` wraps and the source emits indices
against an empty vertex list).  Stated on the header-corrected parser, since
the shipped header check rejects every input. -/
theorem formatA_mesh_index_bound (f32 : Nat → ℝ) (src : List Nat) (hEnd : Nat)
    (hH : mpcdiHeaderEnd src = some hEnd)
    (hc : 1 ≤ (sscanfPF (src.take hEnd)).nCols)
    (hr : 1 ≤ (sscanfPF (src.take hEnd)).nRows)
    (hprod : (sscanfPF (src.take hEnd)).nCols *
      (sscanfPF (src.take hEnd)).nRows < 2147483648) :
    ∀ i ∈ (okBuffer (generateMpcdiMeshHeaderFixed f32 src)).indices,
      i < (okBuffer (generateMpcdiMeshHeaderFixed f32 src)).vertices.length := by
  intro i hi
  unfold generateMpcdiMeshHeaderFixed generateMpcdiMeshAux at hi ⊢
  rw [hH] at hi ⊢
  dsimp only at hi ⊢
  split_ifs at hi ⊢ with h1 h2 h3
  · simp [okBuffer] at hi
  · simp [okBuffer] at hi
  · simp [okBuffer] at hi
  · simp only [okBuffer, List.length_map, List.length_range] at hi ⊢
    rw [u32, Nat.mod_eq_of_lt (by omega)]
    exact mpcdiGridIndices_lt _ _ hc hr hprod i hi

/-- Witness for C1 at the concrete `4 x 3` input: the header parses at offset
10 with a wrap-free grid size, index 5 occurs in the produced index buffer
and is below the vertex count 12. -/
theorem formatA_mesh_index_bound_witness :
    mpcdiHeaderEnd pfm43File = some 10 ∧
    1 ≤ (sscanfPF (pfm43File.take 10)).nCols ∧
    1 ≤ (sscanfPF (pfm43File.take 10)).nRows ∧
    (sscanfPF (pfm43File.take 10)).nCols *
      (sscanfPF (pfm43File.take 10)).nRows < 2147483648 ∧
    5 ∈ (okBuffer (generateMpcdiMeshHeaderFixed dec0 pfm43File)).indices ∧
    5 < (okBuffer (generateMpcdiMeshHeaderFixed dec0 pfm43File)).vertices.length :=
  ⟨rfl, by decide, by decide, by decide, by decide,
   formatA_mesh_index_bound dec0 pfm43File 10 rfl (by decide) (by decide)
     (by decide) 5 (by decide)⟩

/-- C3 (amended): for every successful Format B parse, the number of vertices
in the returned buffer is the second descriptor word when the file-version
byte is the number 2, and the 32-bit wrapped product
`size[0] * size[1] mod 2^32` for any other version (the source multiplies two
`unsigned int` values); for wrap-free descriptors this is the plain product,
so `(4, 100)` under version 2 and `(10, 10)` under version 1 both yield
exactly 100 vertices. -/
theorem sciss_vertex_count_version_switch (f32 : Nat → ℝ) (file : List Nat)
    (vp : BaseViewport) (h : (generateScissMesh f32 file vp).isOk = true) :
    (okBuffer (generateScissMesh f32 file vp)).vertices.length =
      if scissFileVersion file = 2 then scissSize1 file
      else u32 (scissSize0 file * scissSize1 file) := by
  rw [generateScissMesh_ok f32 file vp h]
  show (scissVertices f32 file vp).length = _
  rw [scissVertices, List.length_map, List.length_range, scissNVertices]

/-- C3 (counterexample): a version-1 Format B file with vertex descriptor
`(65536, 65536)` parses successfully with zero vertices — the 32-bit unsigned
product wraps to 0 — refuting the claim that the vertex count equals the
product of the two descriptor values. -/
theorem sciss_vertex_count_wrap_cx :
    (generateScissMesh dec0 scissWrapFile vp0).isOk = true ∧
    scissFileVersion scissWrapFile = 1 ∧
    scissSize0 scissWrapFile = 65536 ∧
    scissSize1 scissWrapFile = 65536 ∧
    (okBuffer (generateScissMesh dec0 scissWrapFile vp0)).vertices.length = 0 ∧
    ¬ ((0 : Nat) = 65536 * 65536) :=
  ⟨rfl, rfl, rfl, rfl, rfl, by decide⟩

/-- Witness for C3: the version-2 descriptor `(4, 100)` yields exactly 100
vertices and the version-1 descriptor `(10, 10)` also yields exactly 100. -/
theorem sciss_vertex_count_version_switch_witness :
    (okBuffer (generateScissMesh dec0 scissV2File vp0)).vertices.length = 100 ∧
    (okBuffer (generateScissMesh dec0 scissV1File vp0)).vertices.length = 100 := by
  have hpre2 : ([83, 71, 67, 2] ++ List.replicate 48 (0 : Nat) ++ [4, 0, 0, 0] ++
      [100, 0, 0, 0]).length = 60 := by decide
  have hpre1 : ([83, 71, 67, 1] ++ List.replicate 48 (0 : Nat) ++ [10, 0, 0, 0] ++
      [10, 0, 0, 0]).length = 60 := by decide
  have hbyte2 : ∀ k, k < 60 → scissV2File.getD k 0 =
      ([83, 71, 67, 2] ++ List.replicate 48 (0 : Nat) ++ [4, 0, 0, 0] ++
        [100, 0, 0, 0]).getD k 0 := by
    intro k hk
    rw [scissV2File, List.getD_append _ _ _ _ (by rw [hpre2]; omega)]
  have hbyte1 : ∀ k, k < 60 → scissV1File.getD k 0 =
      ([83, 71, 67, 1] ++ List.replicate 48 (0 : Nat) ++ [10, 0, 0, 0] ++
        [10, 0, 0, 0]).getD k 0 := by
    intro k hk
    rw [scissV1File, List.getD_append _ _ _ _ (by rw [hpre1]; omega)]
  have htail2 : ∀ j, 2460 ≤ j → scissV2File.getD j 0 = 0 := by
    intro j hj
    rw [scissV2File, List.getD_append_right _ _ _ _ (by rw [hpre2]; omega), hpre2,
      List.getD_append_right _ _ _ _ (by simp only [List.length_replicate]; omega),
      List.length_replicate]
    exact getD_four_zeros _
  have htail1 : ∀ j, 2460 ≤ j → scissV1File.getD j 0 = 0 := by
    intro j hj
    rw [scissV1File, List.getD_append_right _ _ _ _ (by rw [hpre1]; omega), hpre1,
      List.getD_append_right _ _ _ _ (by simp only [List.length_replicate]; omega),
      List.length_replicate]
    exact getD_four_zeros _
  have hlen2 : scissV2File.length = 2464 := by
    simp only [scissV2File, List.length_append, hpre2, List.length_replicate,
      List.length_cons, List.length_nil]
  have hlen1 : scissV1File.length = 2464 := by
    simp only [scissV1File, List.length_append, hpre1, List.length_replicate,
      List.length_cons, List.length_nil]
  have htake2 : scissV2File.take 3 = [83, 71, 67] := by
    rw [scissV2File, List.take_append_of_le_length (by rw [hpre2]; norm_num)]
    decide
  have htake1 : scissV1File.take 3 = [83, 71, 67] := by
    rw [scissV1File, List.take_append_of_le_length (by rw [hpre1]; norm_num)]
    decide
  have hver2 : scissFileVersion scissV2File = 2 := by
    rw [scissFileVersion, hbyte2 3 (by norm_num)]; decide
  have hver1 : scissFileVersion scissV1File = 1 := by
    rw [scissFileVersion, hbyte1 3 (by norm_num)]; decide
  have hs1v2 : scissSize1 scissV2File = 100 := by
    rw [scissSize1, u32leAt, hbyte2 56 (by norm_num), hbyte2 57 (by norm_num),
      hbyte2 58 (by norm_num), hbyte2 59 (by norm_num)]
    decide
  have hs0v1 : scissSize0 scissV1File = 10 := by
    rw [scissSize0, u32leAt, hbyte1 52 (by norm_num), hbyte1 53 (by norm_num),
      hbyte1 54 (by norm_num), hbyte1 55 (by norm_num)]
    decide
  have hs1v1 : scissSize1 scissV1File = 10 := by
    rw [scissSize1, u32leAt, hbyte1 56 (by norm_num), hbyte1 57 (by norm_num),
      hbyte1 58 (by norm_num), hbyte1 59 (by norm_num)]
    decide
  have hnidx2 : u32leAt scissV2File 2460 = 0 := by
    rw [u32leAt, htail2 2460 (by norm_num), htail2 (2460 + 1) (by norm_num),
      htail2 (2460 + 2) (by norm_num), htail2 (2460 + 3) (by norm_num)]
  have hnidx1 : u32leAt scissV1File 2460 = 0 := by
    rw [u32leAt, htail1 2460 (by norm_num), htail1 (2460 + 1) (by norm_num),
      htail1 (2460 + 2) (by norm_num), htail1 (2460 + 3) (by norm_num)]
  have hnv2 : scissNVertices scissV2File = 100 := by
    rw [scissNVertices, hver2, hs1v2]
    norm_num
  have hnv1 : scissNVertices scissV1File = 100 := by
    rw [scissNVertices, hver1, hs0v1, hs1v1]
    norm_num [u32]
  have hni2 : scissNIndices scissV2File = 0 := by
    rw [scissNIndices, hnv2, show 60 + 24 * 100 = 2460 from rfl]
    exact hnidx2
  have hni1 : scissNIndices scissV1File = 0 := by
    rw [scissNIndices, hnv1, show 60 + 24 * 100 = 2460 from rfl]
    exact hnidx1
  have hok2 : (generateScissMesh dec0 scissV2File vp0).isOk = true := by
    rw [generateScissMesh, hlen2, htake2, hnv2, hni2]
    norm_num [Except.isOk, Except.toBool]
  have hok1 : (generateScissMesh dec0 scissV1File vp0).isOk = true := by
    rw [generateScissMesh, hlen1, htake1, hnv1, hni1]
    norm_num [Except.isOk, Except.toBool]
  constructor
  · rw [sciss_vertex_count_version_switch dec0 scissV2File vp0 hok2, hver2, hs1v2]
    norm_num
  · rw [sciss_vertex_count_version_switch dec0 scissV1File vp0 hok1, hver1, hs0v1,
      hs1v1]
    norm_num [u32]

/-- C7: every successful Format B parse applies the file's view metadata back
to the owning viewport: the user position is set to the view-data record's
position and the view plane is recomputed through `setViewPlaneCoordsUsingFOVs`
from the record's four FOV angles and rotation quaternion (at the default
distance 10); the viewport's position, size, eye tag and enabled flag are not
modified. -/
theorem sciss_applies_view_metadata (f32 : Nat → ℝ) (file : List Nat)
    (vp : BaseViewport) (h : (generateScissMesh f32 file vp).isOk = true) :
    okViewport (generateScissMesh f32 file vp) vp =
      BaseViewport.setViewPlaneCoordsUsingFOVs
        { vp with mUser := ⟨(scissViewDataAt f32 file).x,
            (scissViewDataAt f32 file).y, (scissViewDataAt f32 file).z⟩ }
        (scissViewDataAt f32 file).fovUp (scissViewDataAt f32 file).fovDown
        (scissViewDataAt f32 file).fovLeft (scissViewDataAt f32 file).fovRight
        ⟨(scissViewDataAt f32 file).qw, (scissViewDataAt f32 file).qx,
         (scissViewDataAt f32 file).qy, (scissViewDataAt f32 file).qz⟩ 10 ∧
    (okViewport (generateScissMesh f32 file vp) vp).mPosition = vp.mPosition ∧
    (okViewport (generateScissMesh f32 file vp) vp).mSize = vp.mSize ∧
    (okViewport (generateScissMesh f32 file vp) vp).mEye = vp.mEye ∧
    (okViewport (generateScissMesh f32 file vp) vp).mEnabled = vp.mEnabled ∧
    (okViewport (generateScissMesh f32 file vp) vp).mUser =
      ⟨(scissViewDataAt f32 file).x, (scissViewDataAt f32 file).y,
       (scissViewDataAt f32 file).z⟩ := by
  rw [generateScissMesh_ok f32 file vp h]
  exact ⟨rfl, rfl, rfl, rfl, rfl, rfl⟩

/-- Witness for C7 at a concrete minimal Format B file: the parse succeeds,
preserves position, size, eye and enabled flag, and overwrites the user
position with the (zero) position decoded from the file. -/
theorem sciss_applies_view_metadata_witness :
    (okViewport (generateScissMesh dec0 scissOkFile vp0) vp0).mPosition =
      vp0.mPosition ∧
    (okViewport (generateScissMesh dec0 scissOkFile vp0) vp0).mSize = vp0.mSize ∧
    (okViewport (generateScissMesh dec0 scissOkFile vp0) vp0).mEye = vp0.mEye ∧
    (okViewport (generateScissMesh dec0 scissOkFile vp0) vp0).mEnabled =
      vp0.mEnabled ∧
    (okViewport (generateScissMesh dec0 scissOkFile vp0) vp0).mUser =
      ⟨0, 0, 0⟩ := by
  have h := sciss_applies_view_metadata dec0 scissOkFile vp0 rfl
  exact ⟨h.2.1, h.2.2.1, h.2.2.2.1, h.2.2.2.2.1, h.2.2.2.2.2⟩

/-- C4 (amended): with the identity rotation configured on the viewport and a
non-degenerate plane (`upperRight.z` nonzero), setting a horizontal FOV
`h ∈ (0, 180)` with a positive aspect ratio and reading the horizontal FOV
back returns exactly `h` (in particular within any relative tolerance). -/
theorem fov_roundtrip_identity_rotation (vp : BaseViewport) (hfov aspect : ℝ)
    (hrot : vp.mRot = Quat.identity)
    (hz : vp.mProjectionPlane.upperRight.z ≠ 0)
    (h0 : 0 < hfov) (h180 : hfov < 180) (ha : 0 < aspect) :
    BaseViewport.getHorizontalFieldOfViewDegrees
      (BaseViewport.setHorizontalFieldOfView vp hfov aspect) = hfov := by
  have hπ := Real.pi_pos
  have hd : 0 < |vp.mProjectionPlane.upperRight.z| := abs_pos.mpr hz
  have hdne : |vp.mProjectionPlane.upperRight.z| ≠ 0 := ne_of_gt hd
  have hθpos : 0 < degToRad (hfov / 2) := by
    rw [degToRad]; positivity
  have hθlt : degToRad (hfov / 2) < Real.pi / 2 := by
    rw [degToRad]; nlinarith
  have ht : 0 < Real.tan (degToRad (hfov / 2)) :=
    Real.tan_pos_of_pos_of_lt_pi_div_two hθpos hθlt
  have hneg : degToRad (-hfov / 2) = -degToRad (hfov / 2) := by
    rw [degToRad, degToRad]; ring
  unfold BaseViewport.setHorizontalFieldOfView
    BaseViewport.setViewPlaneCoordsUsingFOVs
    BaseViewport.setViewPlaneCoordsFromUnTransformedCoords
    BaseViewport.getHorizontalFieldOfViewDegrees
  dsimp only
  rw [hrot]
  rw [Quat.rotate_identity, Quat.rotate_identity]
  dsimp only
  rw [hneg, Real.tan_neg]
  have hquot : (|vp.mProjectionPlane.upperRight.z| * Real.tan (degToRad (hfov / 2)) -
        |vp.mProjectionPlane.upperRight.z| * -Real.tan (degToRad (hfov / 2))) / 2 /
        -|vp.mProjectionPlane.upperRight.z| = -Real.tan (degToRad (hfov / 2)) := by
    have h2 : (|vp.mProjectionPlane.upperRight.z| * Real.tan (degToRad (hfov / 2)) -
          |vp.mProjectionPlane.upperRight.z| * -Real.tan (degToRad (hfov / 2))) / 2 /
          -|vp.mProjectionPlane.upperRight.z| =
        -(Real.tan (degToRad (hfov / 2)) * |vp.mProjectionPlane.upperRight.z| /
          |vp.mProjectionPlane.upperRight.z|) := by
      ring
    rw [h2, mul_div_cancel_right₀ _ hdne]
  rw [hquot, abs_neg, abs_of_pos ht,
    Real.arctan_tan (by linarith) hθlt, radToDeg, degToRad]
  field_simp
  ring

/-- Witness for C4 at a concrete identity-rotation viewport, FOV 90 and
aspect ratio 1. -/
theorem fov_roundtrip_identity_rotation_witness :
    vp4w.mRot = Quat.identity ∧ vp4w.mProjectionPlane.upperRight.z ≠ 0 ∧
    (0 : ℝ) < 90 ∧ (90 : ℝ) < 180 ∧ (0 : ℝ) < 1 ∧
    BaseViewport.getHorizontalFieldOfViewDegrees
      (BaseViewport.setHorizontalFieldOfView vp4w 90 1) = 90 :=
  ⟨rfl, by norm_num [vp4w, vp0], by norm_num, by norm_num, by norm_num,
   fov_roundtrip_identity_rotation vp4w 90 1 rfl (by norm_num [vp4w, vp0])
     (by norm_num) (by norm_num) (by norm_num)⟩

/-- C4 (counterexample): on a viewport configured with the non-identity
rotation `quatY35`, setting the horizontal FOV to 90 degrees and reading it
back yields `2 * degrees(arctan(7/17))`, below 48 degrees — far outside the
claimed `1e-4` relative tolerance of 90 — because `setHorizontalFieldOfView`
derives its distance from a rotated corner's z coordinate while the readout
divides corner differences of the rotated plane. -/
theorem fov_roundtrip_rotation_cx :
    cexVp.mRot ≠ Quat.identity ∧
    ¬ (|BaseViewport.getHorizontalFieldOfViewDegrees
          (BaseViewport.setHorizontalFieldOfView cexVp 90 1) - 90| ≤
        90 * (1 / 10000)) := by
  have hπ := Real.pi_pos
  have t45 : Real.tan (degToRad 45) = 1 := by
    rw [degToRad, show (45 : ℝ) * (Real.pi / 180) = Real.pi / 4 by ring,
      Real.tan_pi_div_four]
  have t45n : Real.tan (degToRad (-45)) = -1 := by
    rw [degToRad, show (-45 : ℝ) * (Real.pi / 180) = -(Real.pi / 4) by ring,
      Real.tan_neg, Real.tan_pi_div_four]
  have tA : Real.tan (degToRad (90 / 2)) = 1 := by
    rw [show ((90 : ℝ) / 2) = 45 by norm_num]
    exact t45
  have tB : Real.tan (degToRad (-90 / 2)) = -1 := by
    rw [show ((-90 : ℝ) / 2) = -45 by norm_num]
    exact t45n
  have hUR : cexVp.mProjectionPlane.upperRight = ⟨-31 / 25, 1, -17 / 25⟩ := by
    show Quat.rotate quatY35
      ⟨1 * Real.tan (degToRad 45), 1 * Real.tan (degToRad 45), -1⟩ = _
    rw [t45, Quat.rotate_quatY35]
    norm_num
  have hURz : cexVp.mProjectionPlane.upperRight.z = -17 / 25 := by
    rw [hUR]
  have habs1725 : |(-17 / 25 : ℝ)| = 17 / 25 := by
    rw [abs_of_neg (by norm_num : (-17 / 25 : ℝ) < 0)]
    norm_num
  have hrotc : cexVp.mRot = quatY35 := rfl
  have key : BaseViewport.getHorizontalFieldOfViewDegrees
      (BaseViewport.setHorizontalFieldOfView cexVp 90 1) =
      radToDeg (Real.arctan (7 / 17)) * 2 := by
    unfold BaseViewport.setHorizontalFieldOfView
      BaseViewport.setViewPlaneCoordsUsingFOVs
      BaseViewport.setViewPlaneCoordsFromUnTransformedCoords
      BaseViewport.getHorizontalFieldOfViewDegrees
    dsimp only
    rw [hURz, hrotc, habs1725, tA, tB]
    simp only [Quat.rotate_quatY35]
    have harg : ∀ x y : ℝ, x = y →
        radToDeg (Real.arctan x) * 2 = radToDeg (Real.arctan y) * 2 := by
      intro x y hxy; rw [hxy]
    apply harg
    rw [abs_of_pos (by norm_num)]
    norm_num
  have harc : Real.arctan (7 / 17) < Real.pi / 6 := by
    have h1 : (7 : ℝ) / 17 < Real.tan (Real.pi / 6) := by
      rw [Real.tan_pi_div_six]
      have hs3 : Real.sqrt 3 * Real.sqrt 3 = 3 := Real.mul_self_sqrt (by norm_num)
      have hs3pos : 0 < Real.sqrt 3 := Real.sqrt_pos.mpr (by norm_num)
      rw [div_lt_div_iff₀ (by norm_num) hs3pos]
      nlinarith [hs3, hs3pos]
    have h2 := Real.arctan_strictMono h1
    rwa [Real.arctan_tan (by linarith) (by linarith)] at h2
  have hval : radToDeg (Real.arctan ((7 : ℝ) / 17)) * 2 < 60 := by
    rw [radToDeg]
    have h180 : (0 : ℝ) < 180 / Real.pi := by positivity
    have hm := mul_lt_mul_of_pos_right harc h180
    have heq : Real.pi / 6 * (180 / Real.pi) = 30 := by
      field_simp
      ring
    rw [heq] at hm
    linarith
  constructor
  · intro hcontr
    have hw := congrArg Quat.w hcontr
    rw [hrotc] at hw
    norm_num [quatY35, Quat.identity] at hw
  · intro habs
    rw [key] at habs
    have h1 := (abs_le.mp habs).1
    linarith

/-- C8: when the eye lies exactly on the projection plane (the eye-to-plane
vector is orthogonal to nothing — its component along the plane normal is
zero), the frustum computation is rejected with the configuration error
instead of dividing by zero. -/
theorem eye_on_plane_rejected (eyePos : Vec3) (plane : ProjectionPlane)
    (nearClip farClip : ℝ)
    (h : dot (Vec3.sub plane.lowerLeft eyePos) (planeNormal plane) = 0) :
    calculateProjection eyePos plane nearClip farClip =
      Except.error ConfigError.eyeOnPlane := by
  simp [calculateProjection, h]

/-- Witness for C8: an eye placed on the corner of a concrete unit plane is
rejected. -/
theorem eye_on_plane_rejected_witness :
    calculateProjection ⟨0, 0, -1⟩ ⟨⟨0, 0, -1⟩, ⟨0, 1, -1⟩, ⟨1, 1, -1⟩⟩ 1 100 =
      Except.error ConfigError.eyeOnPlane :=
  eye_on_plane_rejected _ _ _ _ (by norm_num [dot, Vec3.sub, planeNormal, cross])

end



